import Mathlib

/-!
Verification development for the Vakil-Buddy legal chatbot engine
(`legal_chatbot_engine/`: `config.py`, `document_processor.py`,
`vector_store.py`, `rag_pipeline.py`, `api.py`).

The Python sources are shallowly embedded as executable Lean definitions.
External collaborators (spaCy, the LLM chains, the embedding model) are
passed in as explicit function parameters; the filesystem and the persisted
Chroma store are an explicit state record.
-/

/- ## document_processor.py: clean_text -/

/-- Python regex class `\s` (ASCII range), as used by `re.sub(r'\s+', ' ', text)`
in `clean_text` and by `str.strip()`. -/
def isPyWS (c : Char) : Bool :=
  c == ' ' || c == '\t' || c == '\n' || c == '\r' || c == '\x0b' || c == '\x0c'

/-- One pass of `re.sub(r'\s+', ' ', text)`: every maximal whitespace run is
replaced by a single space.  The boolean records whether the previous input
character belonged to a whitespace run already emitted. -/
def squeezeAux : Bool → List Char → List Char
  | _, [] => []
  | prev, c :: rest =>
    if isPyWS c then
      if prev then squeezeAux true rest else ' ' :: squeezeAux true rest
    else c :: squeezeAux false rest

/-- `re.sub(r'\s+', ' ', text)` from `clean_text` (document_processor.py line 45). -/
def squeeze (l : List Char) : List Char := squeezeAux false l

/-- Python `str.strip()`: drop whitespace from both ends. -/
def pystrip (l : List Char) : List Char :=
  ((l.dropWhile isPyWS).reverse.dropWhile isPyWS).reverse

/-- `clean_text` (document_processor.py lines 41-47): collapse whitespace runs
to single spaces, then strip leading/trailing whitespace. -/
def clean_text (text : String) : String := String.mk (pystrip (squeeze text.data))

/- ## document_processor.py: chunk_text

`chunk_text` (lines 49-61) delegates the split to langchain's
`RecursiveCharacterTextSplitter`, which is external library code not present
in this repository.  The splitter below is modelled from the spec. -/

/-- config.py line 26 default: `CHUNK_SIZE = int(os.getenv("CHUNK_SIZE", 1000))`. -/
def CHUNK_SIZE : Nat := 1000

/-- config.py line 27 default: `CHUNK_OVERLAP = int(os.getenv("CHUNK_OVERLAP", 200))`. -/
def CHUNK_OVERLAP : Nat := 200

/-- Modelled from the spec: boundary preference of the recursive splitter
(spec 4.1), for input already normalized by `clean_text` (so the only
remaining boundaries are single spaces).  The split point is the last
space boundary inside the size bound when one lies beyond the overlap,
otherwise the size bound itself (an arbitrary character boundary). -/
def splitPoint (size ov : Nat) (cs : List Char) : Nat :=
  match (cs.take size).reverse.findIdx? (fun c => c == ' ') with
  | some i =>
    if ov < min ((cs.take size).length - i) size
    then min ((cs.take size).length - i) size
    else size
  | none => size

/-- Modelled from the spec: the recursive splitting loop of
`RecursiveCharacterTextSplitter` (external langchain code absent from src),
spec 4.1: each output span is at most `size` characters, consecutive spans
share `ov` characters of trailing/leading context, nothing is dropped, and
empty input yields the empty sequence.  `fuel` bounds the recursion and is
instantiated with the input length, which suffices because every step
consumes at least one character when `ov < size`. -/
def splitGo (size ov : Nat) : Nat → List Char → List (List Char)
  | 0, _ => []
  | fuel + 1, cs =>
    if cs.length ≤ size then (if cs.isEmpty then [] else [cs])
    else
      cs.take (splitPoint size ov cs) ::
        splitGo size ov fuel (cs.drop (splitPoint size ov cs - ov))

/-- Modelled from the spec: `RecursiveCharacterTextSplitter.split_text`. -/
def splitText (size ov : Nat) (cs : List Char) : List (List Char) :=
  splitGo size ov cs.length cs

/-- `chunk_text` (document_processor.py lines 49-61): split the text with the
configured chunk size and overlap. -/
def chunk_text (text : String) : List String :=
  (splitText CHUNK_SIZE CHUNK_OVERLAP text.data).map (fun l => String.mk l)

/-- Concatenation of the tails of the later chunks, each with its first `ov`
characters (the context shared with the previous chunk) removed. -/
def catDrops (ov : Nat) : List (List Char) → List Char
  | [] => []
  | c :: rest => List.drop ov c ++ catDrops ov rest

/-- Concatenate a chunk sequence, removing from every chunk after the first
the `ov` characters of context it shares with its predecessor. -/
def dropOv (ov : Nat) : List (List Char) → List Char
  | [] => []
  | c :: rest => c ++ catDrops ov rest

/-- String-level version of `dropOv`, for stating reconstruction. -/
def removeOverlaps (ov : Nat) (chunks : List String) : String :=
  String.mk (dropOv ov (chunks.map String.data))

/- ## config.py and vector_store.py: filesystem state, build and load -/

/-- config.py line 6. -/
def CHROMA_DB_DIR : String := "legal_chatbot_engine/chroma_db"

/-- config.py line 7. -/
def DOCUMENTS_DIR : String := "legal_chatbot_engine/data/legal_docs"

/-- The observable state outside the process: the PDF files (mapped to the
text their extraction yields), the directories that exist, and the chunk
list persisted in the Chroma store at `CHROMA_DB_DIR` (`none` when
`create_vector_store` has never persisted anything there). -/
structure FS where
  files : List (String × String)
  dirs : List String
  store : Option (List String)
deriving DecidableEq

/-- A fresh environment: no files, no directories, nothing persisted. -/
def emptyFS : FS := { files := [], dirs := [], store := none }

/-- config.py lines 41-43: importing the config module runs
`os.makedirs(CHROMA_DB_DIR, exist_ok=True)` and
`os.makedirs(DOCUMENTS_DIR, exist_ok=True)`, so both directories exist in
every process that reaches any vector-store function. -/
def configInit (fs : FS) : FS :=
  { fs with dirs := CHROMA_DB_DIR :: DOCUMENTS_DIR :: fs.dirs }

/-- The handle `langchain.vectorstores.Chroma` returns: the persist
directory together with the chunk texts the collection holds. -/
structure Chroma where
  persist_directory : String
  contents : List String
deriving DecidableEq

/-- `create_vector_store` (vector_store.py lines 14-31): ensures the
directory exists (`os.makedirs(..., exist_ok=True)`), then
`Chroma.from_texts(texts=chunks, persist_directory=CHROMA_DB_DIR)` followed
by `db.persist()` writes the chunks to the storage location.  There is no
emptiness check anywhere in the function: the makedirs and the persist
happen for every `chunks`, including `[]`. -/
def create_vector_store (chunks : List String) (fs : FS) : FS × Chroma :=
  let fs1 : FS := { fs with dirs := CHROMA_DB_DIR :: fs.dirs }
  let fs2 : FS := { fs1 with store := some chunks }
  (fs2, { persist_directory := CHROMA_DB_DIR, contents := chunks })

/-- `load_vector_store` (vector_store.py lines 33-48): returns `None` when
`os.path.exists(CHROMA_DB_DIR)` is false, otherwise constructs a `Chroma`
over the directory, which reflects whatever is persisted there (an empty
collection when nothing ever was). -/
def load_vector_store (fs : FS) : Option Chroma :=
  if fs.dirs.contains CHROMA_DB_DIR then
    some { persist_directory := CHROMA_DB_DIR, contents := fs.store.getD [] }
  else none

/- ## api.py: ingest_documents -/

/-- The two HTTP rejections `ingest_documents` can raise. -/
inductive HTTPErr where
  | notFound (detail : String)
  | badRequest (detail : String)
deriving DecidableEq

/-- `process_document` (document_processor.py lines 63-76): extract the text
(the `files` map models what `extract_text_from_pdf` yields), return `[]`
when no text was extracted, otherwise clean and chunk it. -/
def process_document (fs : FS) (path : String) : List String :=
  let raw := (fs.files.lookup path).getD ""
  if raw = "" then [] else chunk_text (clean_text raw)

/-- The loop of `ingest_documents` (api.py lines 105-111): for each path,
raise 404 if the file does not exist, else accumulate the chunks of
`process_document`. -/
def gatherChunks (fs : FS) : List String → Except HTTPErr (List String)
  | [] => Except.ok []
  | p :: ps =>
    if (fs.files.lookup p).isSome then
      match gatherChunks fs ps with
      | Except.ok rest => Except.ok (process_document fs p ++ rest)
      | Except.error e => Except.error e
    else Except.error (HTTPErr.notFound ("File not found: " ++ p))

/-- `ingest_documents` (api.py lines 100-122): gather all chunks, reject with
400 when none were extracted, otherwise call `create_vector_store`.  The
returned state records any persistence side effect. -/
def ingest_documents (paths : List String) (fs : FS) : FS × Except HTTPErr String :=
  match gatherChunks fs paths with
  | Except.error e => (fs, Except.error e)
  | Except.ok allChunks =>
    if allChunks.isEmpty then
      (fs, Except.error (HTTPErr.badRequest "No text extracted from provided documents."))
    else
      ((create_vector_store allChunks fs).1,
        Except.ok ("Successfully ingested " ++ toString paths.length ++
          " documents and updated vector store."))

/- ## config.py: chunk configuration load -/

/-- An environment, as read by `os.getenv`. -/
def Env := String → Option String

/-- Decimal digit run for `int()`. -/
def pyIntDigits : List Char → Option Nat
  | [] => none
  | ds =>
    if ds.all Char.isDigit then
      some (ds.foldl (fun a c => 10 * a + (c.toNat - 48)) 0)
    else none

/-- Python `int(s)` on a string: surrounding whitespace ignored, optional
sign, decimal digits (digit-group underscores are not modelled); anything
else raises `ValueError`, modelled as `none`. -/
def pyInt (s : String) : Option Int :=
  match pystrip s.data with
  | '+' :: ds => (pyIntDigits ds).map (fun n => (n : Int))
  | '-' :: ds => (pyIntDigits ds).map (fun n => -(n : Int))
  | ds => (pyIntDigits ds).map (fun n => (n : Int))

/-- config.py lines 26-27:
`CHUNK_SIZE = int(os.getenv("CHUNK_SIZE", 1000))` and
`CHUNK_OVERLAP = int(os.getenv("CHUNK_OVERLAP", 200))`.  The only failure
is a non-integer literal; no relationship between the two values is
checked. -/
def loadChunkConfig (env : Env) : Except String (Int × Int) :=
  match (match env "CHUNK_SIZE" with
         | none => some (1000 : Int)
         | some s => pyInt s) with
  | none => Except.error "ValueError: invalid literal for int() with base 10"
  | some size =>
    match (match env "CHUNK_OVERLAP" with
           | none => some (200 : Int)
           | some s => pyInt s) with
    | none => Except.error "ValueError: invalid literal for int() with base 10"
    | some ov => Except.ok (size, ov)

/-- An environment configuring an overlap of 1500 against the default chunk
size of 1000. -/
def envOverlapTooBig : Env :=
  fun k => if k == "CHUNK_OVERLAP" then some "1500" else none

/-- The environment assigning both chunk settings. -/
def mkChunkEnv (s o : String) : Env :=
  fun k =>
    if k == "CHUNK_SIZE" then some s
    else if k == "CHUNK_OVERLAP" then some o
    else none

/- ## rag_pipeline.py: provider selection and the LLM-backed operations -/

/-- The configuration values `get_llm` reads (config.py lines 11-20).
`openai_api_key` is `none` when the variable is unset; Python treats both
`None` and the empty string as falsy in `if not OPENAI_API_KEY`. -/
structure LLMConfig where
  provider : String
  openai_api_key : Option String
  openai_model_name : String
  openai_temperature : Rat
  ollama_model_name : String
  ollama_base_url : String
deriving DecidableEq

/-- The three provider objects `get_llm` can construct
(rag_pipeline.py lines 21-53). -/
inductive LLM where
  | dummy
  | chatOpenAI (modelName : String) (temperature : Rat) (apiKey : String)
  | ollama (model : String) (baseUrl : String)
deriving DecidableEq

/-- `get_llm` (rag_pipeline.py lines 39-53): `"openai"` requires a non-falsy
API key (else `ValueError`), `"ollama"` always constructs, every other
provider name falls through to the `else` branch and yields `DummyLLM`. -/
def get_llm (cfg : LLMConfig) : Except String LLM :=
  if cfg.provider = "openai" then
    match cfg.openai_api_key with
    | none => Except.error "OPENAI_API_KEY is not set in environment variables or config.py"
    | some k =>
      if k = "" then
        Except.error "OPENAI_API_KEY is not set in environment variables or config.py"
      else Except.ok (LLM.chatOpenAI cfg.openai_model_name cfg.openai_temperature k)
  else if cfg.provider = "ollama" then
    Except.ok (LLM.ollama cfg.ollama_model_name cfg.ollama_base_url)
  else Except.ok LLM.dummy

/-- `summarize_document_chunks` (rag_pipeline.py lines 102-116): with a
`DummyLLM` it returns the canned simulated summary before building any
chain; otherwise the external map-reduce chain (`load_summarize_chain` and
`chain.run`, external langchain code) is invoked, modelled by the
`chainRun` parameter. -/
def summarize_document_chunks (cfg : LLMConfig)
    (chainRun : LLM → List String → Except String String)
    (chunks : List String) : Except String String :=
  match get_llm cfg with
  | Except.error e => Except.error e
  | Except.ok LLM.dummy =>
    Except.ok "This is a simulated summary from the DummyLLM. Please integrate a real LLM for actual summarization."
  | Except.ok llm => chainRun llm chunks

/-- Values appearing in the result dictionaries of the extraction and
comparison operations. -/
inductive PyVal where
  | str (s : String)
  | strList (l : List String)
  | emptyMap
deriving DecidableEq

/-- A Python dict, as an insertion-ordered association list. -/
abbrev PyDict := List (String × PyVal)

/-- Python `d[k] = v` / one step of `d.update(...)`: replace in place when
the key exists, else append. -/
def setKey (d : PyDict) (k : String) (v : PyVal) : PyDict :=
  if d.any (fun p => p.1 == k) then
    d.map (fun p => if p.1 == k then (k, v) else p)
  else d ++ [(k, v)]

/-- Python `d.update(upd)` over an association-list dict. -/
def dictUpdate (d upd : PyDict) : PyDict :=
  upd.foldl (fun acc kv => setKey acc kv.1 kv.2) d

/-- What the spaCy recognizer yields for a text: entity texts labelled
PERSON, ORG, DATE and GPE (rag_pipeline.py lines 131-134). -/
structure SpacyEnts where
  persons : List String
  organizations : List String
  dates : List String
  gpes : List String
deriving DecidableEq

/-- The four recognizer-derived entries of `extracted_data`
(rag_pipeline.py lines 131-134). -/
def spacyTable (e : SpacyEnts) : PyDict :=
  [("persons", PyVal.strList e.persons),
   ("organizations", PyVal.strList e.organizations),
   ("dates", PyVal.strList e.dates),
   ("gpes", PyVal.strList e.gpes)]

/-- The result dictionary of `extract_entities_from_text`:
`{"message": ..., "entities": ...}`. -/
structure EntitiesResult where
  message : String
  entities : PyDict
deriving DecidableEq

/-- `extract_entities_from_text` (rag_pipeline.py lines 118-182).  `nlp` is
the module-level spaCy model (`none` when loading failed at import);
`chainRun` models the external `create_extraction_chain(schema, llm).run`,
whose raised exception carries the string of the `except` branch.  With a
`DummyLLM` the function returns immediately; otherwise the recognizer
entries are collected first (when `nlp` is loaded), then the schema-guided
chain result is merged in, and a chain failure is recorded under
`llm_extraction_error` instead of being propagated. -/
def extract_entities_from_text (cfg : LLMConfig)
    (nlp : Option (String → SpacyEnts))
    (chainRun : LLM → String → Except String PyDict)
    (text : String) : Except String EntitiesResult :=
  match get_llm cfg with
  | Except.error e => Except.error e
  | Except.ok LLM.dummy =>
    Except.ok { message := "Simulated entity extraction. Integrate a real LLM for actual extraction.",
                entities := [] }
  | Except.ok llm =>
    match nlp with
    | some run =>
      let extracted := spacyTable (run text)
      match chainRun llm text with
      | Except.ok llmData =>
        Except.ok { message := "Extracted entities.", entities := dictUpdate extracted llmData }
      | Except.error e =>
        Except.ok { message := "Extracted entities.",
                    entities := setKey extracted "llm_extraction_error" (PyVal.str e) }
    | none =>
      let extracted : PyDict :=
        [("message", PyVal.str "SpaCy model not loaded. Falling back to LLM-only extraction if configured.")]
      match chainRun llm text with
      | Except.ok llmData =>
        Except.ok { message := "Extracted entities.", entities := dictUpdate extracted llmData }
      | Except.error e =>
        Except.ok { message := "Extracted entities.",
                    entities := setKey extracted "llm_extraction_error" (PyVal.str e) }

/-- The result dictionary of `compare_documents`. -/
structure CompareResult where
  message : String
  differences : PyVal
deriving DecidableEq

/-- The comparison prompt of rag_pipeline.py lines 198-208, with the two
document texts (each truncated to their first 2000 characters) already
substituted. -/
def comparePrompt (d1 d2 : String) : String :=
  "Compare the following two legal documents and identify key differences,\n    especially focusing on changes in clauses, facts, or legal interpretations.\n    Document 1:\n    "
    ++ d1 ++ "\n\n    Document 2:\n    " ++ d2 ++
    "\n\n    Provide a concise summary of the differences:"

/-- `compare_documents` (rag_pipeline.py lines 184-214): with a `DummyLLM`
it returns the canned simulated comparison; otherwise the chunks are joined
with spaces, truncated to 2000 characters per side, and the provider call
(`llm(prompt)`, external, modelled by `callLLM`) either succeeds or has its
exception converted into an error message with an empty differences dict. -/
def compare_documents (cfg : LLMConfig)
    (callLLM : LLM → String → Except String String)
    (doc1_chunks doc2_chunks : List String) : Except String CompareResult :=
  match get_llm cfg with
  | Except.error e => Except.error e
  | Except.ok LLM.dummy =>
    Except.ok { message := "Simulated document comparison. Integrate a real LLM for actual comparison.",
                differences := PyVal.str "Differences would be highlighted here." }
  | Except.ok llm =>
    let doc1_full_text := String.intercalate " " doc1_chunks
    let doc2_full_text := String.intercalate " " doc2_chunks
    let prompt := comparePrompt (doc1_full_text.take 2000) (doc2_full_text.take 2000)
    match callLLM llm prompt with
    | Except.ok r =>
      Except.ok { message := "Document comparison completed.", differences := PyVal.str r }
    | Except.error e =>
      Except.ok { message := "Error during document comparison: " ++ e,
                  differences := PyVal.emptyMap }

/-- `leadsWith n l` is `true` when `n` is an initial segment of `l`. -/
def leadsWith : List Char → List Char → Bool
  | [], _ => true
  | _ :: _, [] => false
  | a :: as, b :: bs => a == b && leadsWith as bs

/-- `true` when the string carries the simulated-output marker (it contains
"simulated" or "Simulated" as a substring). -/
def markedSimulated (s : String) : Bool :=
  s.data.tails.any (fun t => leadsWith "imulated".data t)

/- ## rag_pipeline.py: extract_citations_from_text

rag_pipeline.py calls `re.findall` and `re.sub` in
`extract_citations_from_text` (lines 238-242), but its import block (lines
1-11) never imports `re`; Python resolves the name at call time against the
module globals (and then the builtins, which have no `re` either), so every
call raises `NameError`.  The regex matching that the body would perform if
`re` were available is embedded below with a small backtracking matcher
mirroring the semantics of the two patterns under `re.IGNORECASE`. -/

/-- The names bound at module scope of rag_pipeline.py: the import block
(lines 1-11), the module-level `nlp` (lines 15-19), and the class and
function definitions.  `re` is not among them, and it is not a builtin. -/
def ragPipelineGlobals : List String :=
  ["spacy", "RetrievalQA", "create_extraction_chain", "load_summarize_chain",
   "ChatOpenAI", "Ollama", "PromptTemplate", "Document", "load_vector_store",
   "os", "List", "Dict", "Any", "LLM_PROVIDER", "OPENAI_API_KEY",
   "OPENAI_MODEL_NAME", "OPENAI_TEMPERATURE", "OLLAMA_MODEL_NAME",
   "OLLAMA_BASE_URL", "nlp", "DummyLLM", "get_llm", "setup_rag_pipeline",
   "query_rag_pipeline", "summarize_document_chunks",
   "extract_entities_from_text", "compare_documents",
   "extract_citations_from_text"]

/-- Regular expressions over characters, covering exactly the constructs the
two citation patterns use: character classes, case-insensitive literals
(`re.IGNORECASE`), concatenation, ordered alternation, greedy option, and
greedy one-or-more repetition of a class. -/
inductive Rx where
  | eps
  | cls (p : Char → Bool)
  | lit (l : List Char)
  | seq (a b : Rx)
  | alt (a b : Rx)
  | opt (a : Rx)
  | plus (p : Char → Bool)

/-- Match a literal case-insensitively against the front of the input, then
continue with `k`. -/
def matchLitCI : List Char → List Char → (List Char → Option (List Char)) → Option (List Char)
  | [], s, k => k s
  | _ :: _, [], _ => none
  | c :: cs, d :: s, k =>
    if c.toLower == d.toLower then matchLitCI cs s k else none

/-- Greedy one-or-more: try consuming `n` characters first, then fewer, down
to one, continuing with `k` (the callers pass the length of the maximal run
of class characters as `n`). -/
def plusTries : Nat → List Char → (List Char → Option (List Char)) → Option (List Char)
  | 0, _, _ => none
  | i + 1, s, k =>
    match k (s.drop (i + 1)) with
    | some r => some r
    | none => plusTries i s k

/-- Backtracking matcher in continuation-passing style: `mrun rx s k` tries
to match `rx` at the front of `s` in Python order (alternatives left to
right, quantifiers greedy) and passes the remaining input to `k`. -/
def mrun : Rx → List Char → (List Char → Option (List Char)) → Option (List Char)
  | Rx.eps, s, k => k s
  | Rx.cls p, s, k =>
    match s with
    | [] => none
    | c :: rest => if p c then k rest else none
  | Rx.lit l, s, k => matchLitCI l s k
  | Rx.seq a b, s, k => mrun a s (fun s2 => mrun b s2 k)
  | Rx.alt a b, s, k =>
    match mrun a s k with
    | some r => some r
    | none => mrun b s k
  | Rx.opt a, s, k =>
    match mrun a s k with
    | some r => some r
    | none => k s
  | Rx.plus p, s, k => plusTries (s.takeWhile p).length s k

/-- The scanning loop of `re.findall`: at each position try a match; on
success record the matched text and continue after it (advancing one
character for an empty match, which also gets recorded, as Python does);
on failure advance one character.  The fuel is instantiated with
`length + 1`, enough because every step advances. -/
def findallGo (rx : Rx) : Nat → List Char → List (List Char)
  | 0, _ => []
  | fuel + 1, s =>
    match mrun rx s (fun rest => some rest) with
    | none =>
      match s with
      | [] => []
      | _ :: rest => findallGo rx fuel rest
    | some rem =>
      if s.length - rem.length == 0 then
        match s with
        | [] => [[]]
        | _ :: rest => [] :: findallGo rx fuel rest
      else
        s.take (s.length - rem.length) ::
          findallGo rx fuel (s.drop (s.length - rem.length))

/-- `re.findall(pattern, text)`: all non-overlapping matches, left to right. -/
def findall (rx : Rx) (s : List Char) : List (List Char) :=
  findallGo rx (s.length + 1) s

/-- Sequence a list of regexes. -/
def rxSeq (rs : List Rx) : Rx := rs.foldr Rx.seq Rx.eps

/-- Ordered alternation of a list of regexes. -/
def rxAlts : List Rx → Rx
  | [] => Rx.eps
  | [r] => r
  | r :: rest => Rx.alt r (rxAlts rest)

/-- `[a-zA-Z\s]` under `re.IGNORECASE`. -/
def alphaWsCls (c : Char) : Bool := c.isAlpha || isPyWS c

/-- rag_pipeline.py line 231, compiled with `re.IGNORECASE`:
`(?:Section|Article|Rule|Order)\s+\d+(?:[A-Za-z])?\s+(?:of\s+the\s+)?`
`(?:[A-Z][a-zA-Z\s]+(?:Act|Code|Constitution|Rules|Regulation),?\s+\d{4})?`
(with `[A-Z]` matching any letter under IGNORECASE). -/
def sectionPattern : Rx :=
  rxSeq [rxAlts [Rx.lit "Section".data, Rx.lit "Article".data,
                 Rx.lit "Rule".data, Rx.lit "Order".data],
         Rx.plus isPyWS,
         Rx.plus Char.isDigit,
         Rx.opt (Rx.cls Char.isAlpha),
         Rx.plus isPyWS,
         Rx.opt (rxSeq [Rx.lit "of".data, Rx.plus isPyWS,
                        Rx.lit "the".data, Rx.plus isPyWS]),
         Rx.opt (rxSeq [Rx.cls Char.isAlpha,
                        Rx.plus alphaWsCls,
                        rxAlts [Rx.lit "Act".data, Rx.lit "Code".data,
                                Rx.lit "Constitution".data, Rx.lit "Rules".data,
                                Rx.lit "Regulation".data],
                        Rx.opt (Rx.cls (fun c => c == ',')),
                        Rx.plus isPyWS,
                        Rx.cls Char.isDigit, Rx.cls Char.isDigit,
                        Rx.cls Char.isDigit, Rx.cls Char.isDigit])]

/-- rag_pipeline.py line 235: `\(\d{4}\)\s+\d+\s+[A-Z]+\s+\d+`
(with `[A-Z]` matching any letter under IGNORECASE). -/
def casePattern : Rx :=
  rxSeq [Rx.cls (fun c => c == '('),
         Rx.cls Char.isDigit, Rx.cls Char.isDigit,
         Rx.cls Char.isDigit, Rx.cls Char.isDigit,
         Rx.cls (fun c => c == ')'),
         Rx.plus isPyWS,
         Rx.plus Char.isDigit,
         Rx.plus isPyWS,
         Rx.plus Char.isAlpha,
         Rx.plus isPyWS,
         Rx.plus Char.isDigit]

/-- Deduplication keeping first occurrences.  (Python builds `list(set(..))`
whose iteration order is unspecified; only set-level facts are meaningful.) -/
def dedupKeepFirst : List String → List String
  | [] => []
  | s :: rest => s :: (dedupKeepFirst rest).filter (fun t => t != s)

/-- The value rag_pipeline.py lines 221-244 would compute if the name `re`
resolved: both findall passes, then per-match whitespace normalization
(`re.sub` of whitespace runs and `strip`, the same operation as
`clean_text`) and set-based deduplication. -/
def citationsBody (text : String) : List String :=
  dedupKeepFirst
    ((findall sectionPattern text.data ++ findall casePattern text.data).map
      (fun c => clean_text (String.mk c)))

/-- `extract_citations_from_text` (rag_pipeline.py lines 216-244): the first
statement executed is `citations.extend(re.findall(...))` (line 238), whose
lookup of the name `re` against the module globals fails, raising
`NameError`; only if the name resolved would the body compute the citation
list. -/
def extract_citations_from_text (text : String) : Except String (List String) :=
  if ragPipelineGlobals.contains "re" then Except.ok (citationsBody text)
  else Except.error "NameError: name re is not defined"

/-- The default configuration of config.py (no environment overrides):
provider "dummy", no API key, default model names. -/
def cfgDummy : LLMConfig :=
  { provider := "dummy", openai_api_key := none,
    openai_model_name := "gpt-3.5-turbo", openai_temperature := 0,
    ollama_model_name := "llama2", ollama_base_url := "http://localhost:11434" }

/-- A configuration naming a provider `get_llm` does not recognize. -/
def cfgUnknownProvider : LLMConfig := { cfgDummy with provider := "gemini" }

/-- The configuration selecting the local-server provider. -/
def cfgOllama : LLMConfig := { cfgDummy with provider := "ollama" }

/-- A schema-guided extraction chain whose run always raises. -/
def extChainFail : LLM → String → Except String PyDict :=
  fun _ _ => Except.error "boom"

/-- A recognizer that finds no entities. -/
def constNoEnts : String → SpacyEnts :=
  fun _ => { persons := [], organizations := [], dates := [], gpes := [] }

/-! ### Theorems -/

theorem splitPoint_bounds (size ov : Nat) (cs : List Char) (hov : ov < size) :
    ov < splitPoint size ov cs ∧ splitPoint size ov cs ≤ size := by
  unfold splitPoint
  split
  · rename_i i _
    by_cases h : ov < min ((cs.take size).length - i) size
    · rw [if_pos h]
      exact ⟨h, Nat.min_le_right _ _⟩
    · rw [if_neg h]
      exact ⟨hov, Nat.le_refl _⟩
  · exact ⟨hov, Nat.le_refl _⟩

theorem splitGo_nil (size ov fuel : Nat) : splitGo size ov fuel [] = [] := by
  cases fuel with
  | zero => rfl
  | succ n => simp [splitGo]

theorem splitGo_short (size ov n : Nat) (cs : List Char)
    (h : cs.length ≤ size) (hne : cs ≠ []) :
    splitGo size ov (n + 1) cs = [cs] := by
  cases cs with
  | nil => exact absurd rfl hne
  | cons a l =>
    have h' : (a :: l).length ≤ size := h
    simp only [splitGo]
    rw [if_pos h']
    rfl

theorem splitGo_long (size ov n : Nat) (cs : List Char) (h : ¬cs.length ≤ size) :
    splitGo size ov (n + 1) cs =
      cs.take (splitPoint size ov cs) ::
        splitGo size ov n (cs.drop (splitPoint size ov cs - ov)) := by
  simp [splitGo, h]

theorem splitGo_spec (size ov : Nat) (hov : ov < size) :
    ∀ fuel cs, cs.length ≤ fuel →
      dropOv ov (splitGo size ov fuel cs) = cs ∧
      (ov < cs.length →
        ∃ h t, splitGo size ov fuel cs = h :: t ∧ ov < h.length) := by
  intro fuel
  induction fuel with
  | zero =>
    intro cs hcs
    have hnil : cs = [] := List.length_eq_zero.mp (Nat.le_zero.mp hcs)
    subst hnil
    exact ⟨rfl, fun h => absurd h (by simp)⟩
  | succ n ih =>
    intro cs hcs
    by_cases hsz : cs.length ≤ size
    · cases hne : cs with
      | nil => exact ⟨by rw [splitGo_nil]; rfl, fun h => absurd h (by simp)⟩
      | cons a l =>
        rw [← hne]
        have hgo := splitGo_short size ov n cs hsz (by rw [hne]; exact List.cons_ne_nil a l)
        refine ⟨?_, ?_⟩
        · rw [hgo]; simp [dropOv, catDrops]
        · intro hlen
          exact ⟨cs, [], hgo, hlen⟩
    · have hpb := splitPoint_bounds size ov cs hov
      obtain ⟨hov_p, hp_sz⟩ := hpb
      have hcs_long : size < cs.length := Nat.lt_of_not_le hsz
      have hgo := splitGo_long size ov n cs hsz
      set p := splitPoint size ov cs with hp
      set ds := cs.drop (p - ov) with hds
      have hds_len : ds.length = cs.length - (p - ov) := by
        rw [hds, List.length_drop]
      have hds_le : ds.length ≤ n := by omega
      have hds_ov : ov < ds.length := by omega
      obtain ⟨ihrec, ihhead⟩ := ih ds hds_le
      obtain ⟨h, t, hht, hhlen⟩ := ihhead hds_ov
      refine ⟨?_, ?_⟩
      · rw [hgo, hht]
        rw [hht] at ihrec
        have hds_eq : h ++ catDrops ov t = ds := by
          simpa [dropOv] using ihrec
        have hcat : catDrops ov (h :: t) = List.drop ov ds := by
          rw [← hds_eq]
          rw [List.drop_append_of_le_length (Nat.le_of_lt hhlen)]
          simp [catDrops]
        show cs.take p ++ catDrops ov (h :: t) = cs
        rw [hcat, hds, List.drop_drop]
        have hpov : p - ov + ov = p := by omega
        rw [hpov, List.take_append_drop]
      · intro _
        refine ⟨cs.take p, _, hgo, ?_⟩
        rw [List.length_take]
        omega

theorem splitText_reconstruct (size ov : Nat) (hov : ov < size) (cs : List Char) :
    dropOv ov (splitText size ov cs) = cs :=
  (splitGo_spec size ov hov cs.length cs (Nat.le_refl _)).1

/-- C7: for every text T, concatenating the chunks of
`chunk_text (clean_text T)` with the overlap shared between consecutive
chunks removed reconstructs `clean_text T` exactly: the chunker drops no
character of the normalized input. -/
theorem C7_chunking_reconstructs (T : String) :
    removeOverlaps CHUNK_OVERLAP (chunk_text (clean_text T)) = clean_text T := by
  unfold removeOverlaps chunk_text
  have hmap : ((splitText CHUNK_SIZE CHUNK_OVERLAP (clean_text T).data).map
      (fun l => String.mk l)).map String.data =
      splitText CHUNK_SIZE CHUNK_OVERLAP (clean_text T).data := by
    rw [List.map_map]
    exact List.map_id _
  rw [hmap, splitText_reconstruct CHUNK_SIZE CHUNK_OVERLAP (by decide)]

theorem squeezeAux_length_le : ∀ (l : List Char) (b : Bool),
    (squeezeAux b l).length ≤ l.length := by
  intro l
  induction l with
  | nil => intro b; simp [squeezeAux]
  | cons c rest ih =>
    intro b
    simp only [squeezeAux]
    by_cases hws : isPyWS c
    · rw [if_pos hws]
      cases b with
      | true =>
        calc (squeezeAux true rest).length ≤ rest.length := ih true
          _ ≤ (c :: rest).length := by simp
      | false =>
        simp only [List.length_cons]
        exact Nat.succ_le_succ (ih true)
    · rw [if_neg hws]
      simp only [List.length_cons]
      exact Nat.succ_le_succ (ih false)

theorem pystrip_length_le (l : List Char) : (pystrip l).length ≤ l.length := by
  unfold pystrip
  calc (((l.dropWhile isPyWS).reverse.dropWhile isPyWS).reverse).length
      = ((l.dropWhile isPyWS).reverse.dropWhile isPyWS).length := by
        rw [List.length_reverse]
    _ ≤ (l.dropWhile isPyWS).reverse.length :=
        (List.IsSuffix.sublist (List.dropWhile_suffix isPyWS)).length_le
    _ = (l.dropWhile isPyWS).length := by rw [List.length_reverse]
    _ ≤ l.length :=
        (List.IsSuffix.sublist (List.dropWhile_suffix isPyWS)).length_le

theorem clean_text_length_le (T : String) : (clean_text T).length ≤ T.length := by
  show (pystrip (squeeze T.data)).length ≤ T.data.length
  calc (pystrip (squeeze T.data)).length ≤ (squeeze T.data).length :=
        pystrip_length_le _
    _ ≤ T.data.length := squeezeAux_length_le _ _

/-- C8 amended: for every text whose length is below the configured chunk
size and whose normalization is nonempty, chunking the normalized text
yields exactly one chunk, equal to the normalized text.  (The empty case is
excluded: it yields the empty sequence, see the counterexample.) -/
theorem C8_short_input_single_chunk (T : String)
    (h1 : T.length < CHUNK_SIZE) (h2 : clean_text T ≠ "") :
    chunk_text (clean_text T) = [clean_text T] := by
  have hlen : (clean_text T).data.length ≤ T.length := clean_text_length_le T
  unfold chunk_text splitText
  cases hd : (clean_text T).data with
  | nil =>
    exfalso
    apply h2
    have : clean_text T = String.mk (clean_text T).data := rfl
    rw [this, hd]
  | cons a l =>
    rw [hd] at hlen
    have hsz : (a :: l).length ≤ CHUNK_SIZE :=
      Nat.le_of_lt (Nat.lt_of_le_of_lt hlen h1)
    have hgo := splitGo_short CHUNK_SIZE CHUNK_OVERLAP l.length (a :: l) hsz
      (List.cons_ne_nil a l)
    have hfl : (a :: l).length = l.length + 1 := rfl
    rw [hfl, hgo]
    show [String.mk (a :: l)] = [clean_text T]
    rw [← hd]

/-- C8 counterexample: the empty text is shorter than the configured chunk
size, yet chunking its normalization yields the empty sequence, not a
single chunk as the claim states. -/
theorem C8_counterexample_empty_text :
    ("" : String).length < CHUNK_SIZE ∧
      chunk_text (clean_text "") ≠ [clean_text ""] := by decide

/-- Witness for `C8_short_input_single_chunk` at a concrete input. -/
theorem C8_short_input_single_chunk_witness :
    chunk_text (clean_text "hello  world") = [clean_text "hello  world"] :=
  C8_short_input_single_chunk "hello  world" (by decide) (by decide)

/-- C2: in a process whose startup has run (config imported, which eagerly
creates `CHROMA_DB_DIR`), the store has never been built, yet
`load_vector_store` returns a usable (empty) `Chroma` handle instead of the
`None` not-found signal the claim describes. -/
theorem C2_load_defeated_by_eager_makedirs :
    (configInit emptyFS).store = none ∧
      load_vector_store (configInit emptyFS) =
        some { persist_directory := CHROMA_DB_DIR, contents := [] } :=
  ⟨rfl, rfl⟩

/-- C3 counterexample: calling the build operation itself with an empty
passage list is not rejected; it creates persisted index content (an empty
collection) at the storage location that held nothing before. -/
theorem C3_create_empty_not_rejected :
    (configInit emptyFS).store = none ∧
      (create_vector_store [] (configInit emptyFS)).1.store = some [] :=
  ⟨rfl, rfl⟩

/-- C3 amended: `create_vector_store` itself performs no emptiness check
(building from `[]` persists an empty index), but the ingestion endpoint
rejects an empty extracted-chunk set with HTTP 400 before calling the build
operation, leaving the persisted state untouched. -/
theorem C3_empty_rejected_at_api_level (fs : FS) (paths : List String)
    (h : gatherChunks fs paths = Except.ok []) :
    ingest_documents paths fs =
        (fs, Except.error (HTTPErr.badRequest "No text extracted from provided documents."))
      ∧ (create_vector_store [] fs).1.store = some [] := by
  constructor
  · unfold ingest_documents
    rw [h]
    rfl
  · rfl

/-- Witness for `C3_empty_rejected_at_api_level` at a concrete input. -/
theorem C3_empty_rejected_at_api_level_witness :
    ingest_documents [] (configInit emptyFS) =
        ((configInit emptyFS),
          Except.error (HTTPErr.badRequest "No text extracted from provided documents."))
      ∧ (create_vector_store [] (configInit emptyFS)).1.store = some [] :=
  C3_empty_rejected_at_api_level (configInit emptyFS) [] rfl

/-- C4 counterexample: a configuration with chunkOverlap (1500) greater than
chunkSize (1000) loads successfully at startup; nothing rejects it at
configuration-load time. -/
theorem C4_overlap_not_rejected_at_load :
    loadChunkConfig envOverlapTooBig = Except.ok (1000, 1500) ∧
      (1000 : Int) ≤ 1500 :=
  ⟨rfl, by decide⟩

/-- C4 amended: configuration load performs no chunkSize/chunkOverlap
relationship validation: every pair of parseable integer settings is
accepted at startup, including pairs with chunkOverlap at or above
chunkSize. -/
theorem C4_load_accepts_any_integers (s o : String) (sz ov : Int)
    (hs : pyInt s = some sz) (ho : pyInt o = some ov) :
    loadChunkConfig (mkChunkEnv s o) = Except.ok (sz, ov) := by
  have e1 : mkChunkEnv s o "CHUNK_SIZE" = some s := rfl
  have e2 : mkChunkEnv s o "CHUNK_OVERLAP" = some o := rfl
  unfold loadChunkConfig
  rw [e1, e2]
  simp [hs, ho]

/-- Witness for `C4_load_accepts_any_integers` with overlap above size. -/
theorem C4_load_accepts_any_integers_witness :
    loadChunkConfig (mkChunkEnv "1000" "1500") = Except.ok (1000, 1500) :=
  C4_load_accepts_any_integers "1000" "1500" 1000 1500 rfl rfl

/-- C1: calling `extract_citations_from_text` on the claimed input raises
`NameError` (the module never imports `re`) instead of returning a citation
list. -/
theorem C1_extract_citations_raises_name_error :
    extract_citations_from_text "Section 302 of the Indian Penal Code, 1860" =
      Except.error "NameError: name re is not defined" := rfl

/-- Had `re` been imported, the regex body would indeed return exactly the
whitespace-normalized claimed citation: the claim (and the spec) describe
the evident intent of the code, and the missing import is the slip. -/
theorem citations_body_would_contain_claimed_citation :
    citationsBody "Section 302 of the Indian Penal Code, 1860" =
      ["Section 302 of the Indian Penal Code, 1860"] := by rfl

/-- C5: whenever the configured provider resolves to the Offline `DummyLLM`,
`summarize_document_chunks`, `extract_entities_from_text` (before its schema
path would even run) and `compare_documents` all return the canned results
whose text is explicitly marked as simulated, independently of the external
chains, the recognizer, and the inputs. -/
theorem C5_offline_results_marked_simulated (cfg : LLMConfig)
    (sumChain : LLM → List String → Except String String)
    (nlp : Option (String → SpacyEnts))
    (extChain : LLM → String → Except String PyDict)
    (cmpCall : LLM → String → Except String String)
    (chunks d1 d2 : List String) (text : String)
    (h : get_llm cfg = Except.ok LLM.dummy) :
    summarize_document_chunks cfg sumChain chunks =
        Except.ok "This is a simulated summary from the DummyLLM. Please integrate a real LLM for actual summarization."
      ∧ extract_entities_from_text cfg nlp extChain text =
        Except.ok { message := "Simulated entity extraction. Integrate a real LLM for actual extraction.",
                    entities := [] }
      ∧ compare_documents cfg cmpCall d1 d2 =
        Except.ok { message := "Simulated document comparison. Integrate a real LLM for actual comparison.",
                    differences := PyVal.str "Differences would be highlighted here." }
      ∧ markedSimulated "This is a simulated summary from the DummyLLM. Please integrate a real LLM for actual summarization." = true
      ∧ markedSimulated "Simulated entity extraction. Integrate a real LLM for actual extraction." = true
      ∧ markedSimulated "Simulated document comparison. Integrate a real LLM for actual comparison." = true := by
  refine ⟨?_, ?_, ?_, by decide, by decide, by decide⟩
  · unfold summarize_document_chunks
    rw [h]
  · unfold extract_entities_from_text
    rw [h]
  · unfold compare_documents
    rw [h]

/-- Witness for `C5_offline_results_marked_simulated` under the default
configuration. -/
theorem C5_offline_results_marked_simulated_witness :
    summarize_document_chunks cfgDummy (fun _ _ => Except.ok "") ["c"] =
        Except.ok "This is a simulated summary from the DummyLLM. Please integrate a real LLM for actual summarization."
      ∧ extract_entities_from_text cfgDummy (some constNoEnts) extChainFail "t" =
        Except.ok { message := "Simulated entity extraction. Integrate a real LLM for actual extraction.",
                    entities := [] }
      ∧ compare_documents cfgDummy (fun _ _ => Except.ok "") ["a"] ["b"] =
        Except.ok { message := "Simulated document comparison. Integrate a real LLM for actual comparison.",
                    differences := PyVal.str "Differences would be highlighted here." }
      ∧ markedSimulated "This is a simulated summary from the DummyLLM. Please integrate a real LLM for actual summarization." = true
      ∧ markedSimulated "Simulated entity extraction. Integrate a real LLM for actual extraction." = true
      ∧ markedSimulated "Simulated document comparison. Integrate a real LLM for actual comparison." = true :=
  C5_offline_results_marked_simulated cfgDummy (fun _ _ => Except.ok "")
    (some constNoEnts) extChainFail (fun _ _ => Except.ok "")
    ["c"] ["a"] ["b"] "t" rfl

/-- C6: provider selection is total in the provider name: every name other
than "openai" and "ollama" resolves to the Offline `DummyLLM` without an
error, "ollama" always constructs its provider, and the only error
`get_llm` can raise is the missing-credential error of the "openai" branch,
never one on the name itself. -/
theorem C6_provider_selection_total (cfg : LLMConfig) :
    (cfg.provider ≠ "openai" → cfg.provider ≠ "ollama" →
      get_llm cfg = Except.ok LLM.dummy)
    ∧ (cfg.provider = "ollama" →
      get_llm cfg = Except.ok (LLM.ollama cfg.ollama_model_name cfg.ollama_base_url))
    ∧ (∀ e, get_llm cfg = Except.error e →
      cfg.provider = "openai" ∧
        (cfg.openai_api_key = none ∨ cfg.openai_api_key = some "")) := by
  refine ⟨?_, ?_, ?_⟩
  · intro h1 h2
    simp [get_llm, h1, h2]
  · intro h2
    have h1 : cfg.provider ≠ "openai" := by rw [h2]; decide
    simp [get_llm, h1, h2]
  · intro e he
    by_cases h1 : cfg.provider = "openai"
    · refine ⟨h1, ?_⟩
      simp only [get_llm, if_pos h1] at he
      cases hk : cfg.openai_api_key with
      | none => exact Or.inl rfl
      | some k =>
        rw [hk] at he
        by_cases hk0 : k = ""
        · refine Or.inr ?_
          rw [hk0]
        · simp [hk0] at he
    · exfalso
      by_cases h2 : cfg.provider = "ollama" <;> simp [get_llm, h1, h2] at he

/-- Witness for `C6_provider_selection_total`: the unrecognized provider
name "gemini" yields the Offline provider. -/
theorem C6_provider_selection_total_witness :
    get_llm cfgUnknownProvider = Except.ok LLM.dummy :=
  (C6_provider_selection_total cfgUnknownProvider).1 (by decide) (by decide)

/-- C9: with a real (non-dummy) provider, a failing schema-guided extraction
call never propagates out of `extract_entities_from_text`: the function
returns a result object whose entity dictionary carries the recognizer
output (when spaCy is loaded, possibly with empty lists) plus the explicit
`llm_extraction_error` string, and when spaCy is not loaded the fallback
message plus the same error field. -/
theorem C9_schema_failure_recovered (cfg : LLMConfig) (llm : LLM)
    (run : String → SpacyEnts) (extChain : LLM → String → Except String PyDict)
    (text err : String)
    (hllm : get_llm cfg = Except.ok llm) (hnd : llm ≠ LLM.dummy)
    (hfail : extChain llm text = Except.error err) :
    extract_entities_from_text cfg (some run) extChain text =
        Except.ok { message := "Extracted entities.",
                    entities := spacyTable (run text) ++ [("llm_extraction_error", PyVal.str err)] }
      ∧ extract_entities_from_text cfg none extChain text =
        Except.ok { message := "Extracted entities.",
                    entities := [("message", PyVal.str "SpaCy model not loaded. Falling back to LLM-only extraction if configured."),
                                 ("llm_extraction_error", PyVal.str err)] } := by
  cases llm with
  | dummy => exact absurd rfl hnd
  | chatOpenAI m t k =>
    simp only [extract_entities_from_text, hllm, hfail]
    exact ⟨rfl, rfl⟩
  | ollama m u =>
    simp only [extract_entities_from_text, hllm, hfail]
    exact ⟨rfl, rfl⟩

/-- Witness for `C9_schema_failure_recovered`: local-server provider, a
recognizer finding nothing, and a chain that raises "boom". -/
theorem C9_schema_failure_recovered_witness :
    extract_entities_from_text cfgOllama (some constNoEnts) extChainFail "x" =
        Except.ok { message := "Extracted entities.",
                    entities := [("persons", PyVal.strList []),
                                 ("organizations", PyVal.strList []),
                                 ("dates", PyVal.strList []),
                                 ("gpes", PyVal.strList []),
                                 ("llm_extraction_error", PyVal.str "boom")] }
      ∧ extract_entities_from_text cfgOllama none extChainFail "x" =
        Except.ok { message := "Extracted entities.",
                    entities := [("message", PyVal.str "SpaCy model not loaded. Falling back to LLM-only extraction if configured."),
                                 ("llm_extraction_error", PyVal.str "boom")] } :=
  C9_schema_failure_recovered cfgOllama
    (LLM.ollama "llama2" "http://localhost:11434") constNoEnts extChainFail
    "x" "boom" rfl (by decide) rfl

/-- C10: with the Offline `DummyLLM` configured, `extract_entities_from_text`
returns immediately with an empty entities mapping for every text: the
recognizer path is never consulted, so its entries (persons, organizations,
dates, gpes) are absent even when a recognizer is loaded and would find
entities. -/
theorem C10_offline_skips_recognizer (cfg : LLMConfig)
    (nlp : Option (String → SpacyEnts))
    (extChain : LLM → String → Except String PyDict) (text : String)
    (h : get_llm cfg = Except.ok LLM.dummy) :
    extract_entities_from_text cfg nlp extChain text =
      Except.ok { message := "Simulated entity extraction. Integrate a real LLM for actual extraction.",
                  entities := [] } := by
  unfold extract_entities_from_text
  rw [h]

/-- Witness for `C10_offline_skips_recognizer`: a loaded recognizer that
would find entities in the text is ignored under the dummy provider. -/
theorem C10_offline_skips_recognizer_witness :
    extract_entities_from_text cfgDummy
        (some (fun _ => { persons := ["John Smith"],
                          organizations := ["High Court of Delhi"],
                          dates := ["2023-01-15"], gpes := ["Delhi"] }))
        extChainFail "John Smith appeared before the High Court of Delhi on 2023-01-15." =
      Except.ok { message := "Simulated entity extraction. Integrate a real LLM for actual extraction.",
                  entities := [] } :=
  C10_offline_skips_recognizer cfgDummy
    (some (fun _ => { persons := ["John Smith"],
                      organizations := ["High Court of Delhi"],
                      dates := ["2023-01-15"], gpes := ["Delhi"] }))
    extChainFail "John Smith appeared before the High Court of Delhi on 2023-01-15." rfl
